import Mathlib

/-!
Verification of the player-state synchronization and command-dispatch core
of `playerctl-tui` (src/app.rs), as a shallow embedding in Lean 4.

The external MPRIS discovery/control source is modelled by `Env`: an
optional finder (`PlayerFinder::new()` may fail) holding an optional player
list (`find_all()` may fail); each `Player` carries an identity string and
the results of its fallible state queries (`PlayerQueries`, one `Option`
per query).  Rust `Duration` values become `Nat` (an abstract unit count),
`f64` volumes become `ℚ` (the code only adds, subtracts and clamps, so the
ordered-field structure is all that matters).  Read-only dispatcher methods
(`&self` in Rust) return the unchanged state paired with the list of
control calls (`Effect`s) pushed to the external player.
-/

/-- mpris `PlaybackStatus`. -/
inductive PlaybackStatus where
  | Playing
  | Paused
  | Stopped
deriving DecidableEq, Repr

/-- mpris `LoopStatus`. -/
inductive LoopStatus where
  | None
  | Track
  | Playlist
deriving DecidableEq, Repr

/-- The fields extracted from an mpris `Metadata` value; each accessor
(`title()`, `artists()`, `album_name()`, `length()`) can be absent. -/
structure MetadataRes where
  title : Option String
  artists : Option (List String)
  album_name : Option String
  length : Option Nat
deriving DecidableEq, Repr

/-- `Metadata::new("")`: the empty metadata used as fallback when
`get_metadata()` fails; every accessor returns `None` on it. -/
def MetadataRes.empty : MetadataRes :=
  ⟨Option.none, Option.none, Option.none, Option.none⟩

/-- Results of the independently fallible state queries of one mpris
player handle (`Err` results become `Option.none`). -/
structure PlayerQueries where
  get_metadata : Option MetadataRes
  get_position : Option Nat
  get_playback_status : Option PlaybackStatus
  get_volume : Option ℚ
  get_loop_status : Option LoopStatus
  get_shuffle : Option Bool
deriving DecidableEq, Repr

/-- One live external player instance: its identity string plus what its
queries would answer right now. -/
structure Player where
  identity : String
  q : PlayerQueries
deriving DecidableEq, Repr

/-- A `PlayerFinder`: `find_all()` may fail (`Option.none`) or return the
current player list. -/
structure Finder where
  find_all : Option (List Player)
deriving DecidableEq, Repr

/-- The external world at one call site: `PlayerFinder::new()` may fail. -/
structure Env where
  finder : Option Finder
deriving DecidableEq, Repr

/-- Control calls pushed to the external player by dispatcher methods. -/
inductive Effect where
  | playPause
  | next
  | previous
  | setVolume (v : ℚ)
  | seekForwards (secs : Nat)
  | seekBackwards (secs : Nat)
  | setLoopStatus (l : LoopStatus)
  | setShuffle (b : Bool)
deriving DecidableEq, Repr

/-- The `App` struct of src/app.rs: the snapshot plus selection state. -/
structure App where
  running : Bool
  player_names : List String
  selected_player : Nat
  title : String
  artist : String
  album : String
  position : Nat
  duration : Nat
  playback_status : String
  volume : ℚ
  loop_status : String
  shuffle : Bool
  tick_count : Nat
deriving DecidableEq, Repr

/-- `App::refresh_players` (src/app.rs:43-71): on finder-construction or
enumeration failure, clear the list (and return — the selection index is
left as it was); on an empty result, clear the list and reset the
selection; otherwise install the new list, re-find the previously selected
identity by string match (falling back to 0 when it is gone), and finally
clamp an out-of-bounds selection to 0. -/
def refresh_players (env : Env) (a : App) : App :=
  match env.finder with
  | Option.none => { a with player_names := [] }
  | Option.some finder =>
    match finder.find_all with
    | Option.none => { a with player_names := [] }
    | Option.some players =>
      let names := players.map Player.identity
      if names.isEmpty then
        { a with player_names := [], selected_player := 0 }
      else
        -- `prev_name = self.player_names.get(self.selected_player)` is read
        -- from the OLD list; `position` then searches the NEW list (already
        -- assigned to `self.player_names` at that point in the Rust code),
        -- and the trailing `selected_player >= len` check clamps to 0.
        let sel1 : Nat :=
          match a.player_names.get? a.selected_player with
          | Option.some prev =>
            match names.findIdx? (fun n => n == prev) with
            | Option.some idx => idx
            | Option.none => 0
          | Option.none => a.selected_player
        let sel2 : Nat := if names.length ≤ sel1 then 0 else sel1
        { a with player_names := names, selected_player := sel2 }

/-- `App::clear_track_info` (src/app.rs:114-124). -/
def clear_track_info (a : App) : App :=
  { a with
    title := ""
    artist := ""
    album := ""
    position := 0
    duration := 0
    playback_status := "Stopped"
    volume := 0
    loop_status := "N/A"
    shuffle := false }

/-- `App::find_current_player` (src/app.rs:126-134): `Option.none` on an
empty list or when finder construction / enumeration fails; otherwise the
first enumerated player whose identity equals the selected name.  (The
Rust code indexes `player_names[selected_player]` directly, panicking when
out of bounds; the `get?`-is-`none` branch models that the lookup has no
answer, and the safety theorem shows it is unreachable from the initial
state.) -/
def find_current_player (env : Env) (a : App) : Option Player :=
  if a.player_names.isEmpty then Option.none
  else
    match a.player_names.get? a.selected_player with
    | Option.none => Option.none
    | Option.some target =>
      match env.finder with
      | Option.none => Option.none
      | Option.some finder =>
        match finder.find_all with
        | Option.none => Option.none
        | Option.some players =>
          players.find? (fun p => p.identity == target)

/-- The field-population half of `App::refresh_state` (src/app.rs:79-111),
factored over the resolved player's query results: metadata falls back to
`Metadata::new("")` wholesale, then each field falls back independently
(`"Unknown"` for the three metadata strings, zero durations, `"Stopped"`,
zero volume, `"N/A"` loop status, `false` shuffle). -/
def apply_queries (q : PlayerQueries) (a : App) : App :=
  let meta := q.get_metadata.getD MetadataRes.empty
  { a with
    title := meta.title.getD "Unknown"
    artist := (meta.artists.map (fun l => String.intercalate ", " l)).getD "Unknown"
    album := meta.album_name.getD "Unknown"
    duration := meta.length.getD 0
    position := q.get_position.getD 0
    playback_status :=
      match q.get_playback_status with
      | Option.some PlaybackStatus.Playing => "Playing"
      | Option.some PlaybackStatus.Paused => "Paused"
      | _ => "Stopped"
    volume := q.get_volume.getD 0
    loop_status :=
      match q.get_loop_status with
      | Option.some LoopStatus.None => "Off"
      | Option.some LoopStatus.Track => "Track"
      | Option.some LoopStatus.Playlist => "Playlist"
      | Option.none => "N/A"
    shuffle := q.get_shuffle.getD false }

/-- `App::refresh_state` (src/app.rs:73-112): defaults everything when no
player resolves, otherwise populates each field from the player's queries. -/
def refresh_state (env : Env) (a : App) : App :=
  match find_current_player env a with
  | Option.none => clear_track_info a
  | Option.some player => apply_queries player.q a

/-- `App::new` (src/app.rs:22-41): the literal initial record, then one
player refresh and one state refresh (each against its own view of the
external world, since each constructs its own finder). -/
def App.new (envP envS : Env) : App :=
  let a : App :=
    { running := true
      player_names := []
      selected_player := 0
      title := ""
      artist := ""
      album := ""
      position := 0
      duration := 0
      playback_status := "Stopped"
      volume := 0
      loop_status := "None"
      shuffle := false
      tick_count := 0 }
  refresh_state envS (refresh_players envP a)

/-- `App::toggle_play_pause` (src/app.rs:136-140): `&self`, so the state
is returned unchanged alongside the pushed control calls. -/
def toggle_play_pause (env : Env) (a : App) : App × List Effect :=
  match find_current_player env a with
  | Option.some _ => (a, [Effect.playPause])
  | Option.none => (a, [])

/-- `App::next_track` (src/app.rs:142-146). -/
def next_track (env : Env) (a : App) : App × List Effect :=
  match find_current_player env a with
  | Option.some _ => (a, [Effect.next])
  | Option.none => (a, [])

/-- `App::prev_track` (src/app.rs:148-152). -/
def prev_track (env : Env) (a : App) : App × List Effect :=
  match find_current_player env a with
  | Option.some _ => (a, [Effect.previous])
  | Option.none => (a, [])

/-- `App::volume_up` (src/app.rs:154-159): pushes
`(self.volume + 0.05).min(1.0)` — clamped above only. -/
def volume_up (env : Env) (a : App) : App × List Effect :=
  match find_current_player env a with
  | Option.some _ => (a, [Effect.setVolume (min (a.volume + 5 / 100) 1)])
  | Option.none => (a, [])

/-- `App::volume_down` (src/app.rs:161-166): pushes
`(self.volume - 0.05).max(0.0)` — clamped below only. -/
def volume_down (env : Env) (a : App) : App × List Effect :=
  match find_current_player env a with
  | Option.some _ => (a, [Effect.setVolume (max (a.volume - 5 / 100) 0)])
  | Option.none => (a, [])

/-- `App::seek_forward` (src/app.rs:168-172). -/
def seek_forward (env : Env) (a : App) : App × List Effect :=
  match find_current_player env a with
  | Option.some _ => (a, [Effect.seekForwards 5])
  | Option.none => (a, [])

/-- `App::seek_backward` (src/app.rs:174-178). -/
def seek_backward (env : Env) (a : App) : App × List Effect :=
  match find_current_player env a with
  | Option.some _ => (a, [Effect.seekBackwards 5])
  | Option.none => (a, [])

/-- The loop-mode successor used by `App::cycle_loop` (src/app.rs:182-187):
None → Track → Playlist → None. -/
def loop_next : LoopStatus → LoopStatus
  | LoopStatus.None => LoopStatus.Track
  | LoopStatus.Track => LoopStatus.Playlist
  | LoopStatus.Playlist => LoopStatus.None

/-- `App::cycle_loop` (src/app.rs:180-190): reads the current loop status
at dispatch time; on a read failure it returns without pushing anything. -/
def cycle_loop (env : Env) (a : App) : App × List Effect :=
  match find_current_player env a with
  | Option.some player =>
    match player.q.get_loop_status with
    | Option.some LoopStatus.None => (a, [Effect.setLoopStatus LoopStatus.Track])
    | Option.some LoopStatus.Track => (a, [Effect.setLoopStatus LoopStatus.Playlist])
    | Option.some LoopStatus.Playlist => (a, [Effect.setLoopStatus LoopStatus.None])
    | Option.none => (a, [])
  | Option.none => (a, [])

/-- `App::toggle_shuffle` (src/app.rs:192-196): pushes the negation of the
snapshot's cached shuffle flag. -/
def toggle_shuffle (env : Env) (a : App) : App × List Effect :=
  match find_current_player env a with
  | Option.some _ => (a, [Effect.setShuffle (!a.shuffle)])
  | Option.none => (a, [])

/-- `App::next_player` (src/app.rs:198-203): circular advance then an
immediate state refresh, guarded on a non-empty list. -/
def next_player (env : Env) (a : App) : App :=
  if a.player_names.isEmpty then a
  else
    refresh_state env
      { a with selected_player := (a.selected_player + 1) % a.player_names.length }

/-- `App::prev_player` (src/app.rs:205-214): circular retreat then an
immediate state refresh, guarded on a non-empty list. -/
def prev_player (env : Env) (a : App) : App :=
  if a.player_names.isEmpty then a
  else
    refresh_state env
      { a with selected_player :=
          if a.selected_player == 0 then a.player_names.length - 1
          else a.selected_player - 1 }

/-- `App::tick` (src/app.rs:216-222): bump the counter, re-enumerate every
20th tick, then always refresh state.  The two refreshes each construct a
fresh finder in Rust, hence the two `Env` arguments. -/
def tick (envP envS : Env) (a : App) : App :=
  let a1 := { a with tick_count := a.tick_count + 1 }
  let a2 := if a1.tick_count % 20 == 0 then refresh_players envP a1 else a1
  refresh_state envS a2

/-! ### Concrete fixtures used by counterexamples and witnesses -/

/-- The initial record of `App::new`, before its two refresh calls. -/
def baseApp : App :=
  { running := true
    player_names := []
    selected_player := 0
    title := ""
    artist := ""
    album := ""
    position := 0
    duration := 0
    playback_status := "Stopped"
    volume := 0
    loop_status := "None"
    shuffle := false
    tick_count := 0 }

/-- An environment whose enumeration succeeds with the given players. -/
def envOf (ps : List Player) : Env := ⟨Option.some ⟨Option.some ps⟩⟩

/-- An environment where `PlayerFinder::new()` fails (bus unreachable). -/
def envNoBus : Env := ⟨Option.none⟩

/-- A query bundle where every query succeeds. -/
def qAll : PlayerQueries :=
  { get_metadata :=
      Option.some
        ⟨Option.some "Song", Option.some ["A1", "A2"], Option.some "Album", Option.some 180⟩
    get_position := Option.some 42
    get_playback_status := Option.some PlaybackStatus.Playing
    get_volume := Option.some (1 / 2)
    get_loop_status := Option.some LoopStatus.None
    get_shuffle := Option.some true }

/-- A query bundle where the metadata query fails but every other query
succeeds (the scenario of the metadata-failure claim). -/
def qMetaFail : PlayerQueries := { qAll with get_metadata := Option.none }

/-- An app whose known-player list is `["P"]` with selection 0. -/
def appP : App := { baseApp with player_names := ["P"], selected_player := 0 }

/-- An app that knew players `["A", "B"]` with selection 1. -/
def appAB1 : App := { baseApp with player_names := ["A", "B"], selected_player := 1 }

/-- The state reached from `appAB1` when the bus becomes unreachable:
empty list, selection still 1. -/
def appEmpty1 : App := { baseApp with player_names := [], selected_player := 1 }

/-- An app with a resolvable player and a cached volume of 2 (the snapshot
stores whatever the external get-volume query last returned; nothing in
the code restricts it to [0,1]). -/
def appVol2 : App := { baseApp with player_names := ["P"], selected_player := 0, volume := 2 }

/-- Metadata whose title field is absent while the other fields are
present. -/
def mNoTitle : MetadataRes :=
  ⟨Option.none, Option.some ["X"], Option.some "Al", Option.some 7⟩

/-- Queries that all succeed, with metadata `mNoTitle`. -/
def qNoTitle : PlayerQueries := { qAll with get_metadata := Option.some mNoTitle }

/-- Three players A, B, C. -/
def playersABC : List Player := [⟨"A", qAll⟩, ⟨"B", qAll⟩, ⟨"C", qAll⟩]

/-- The prior state of the spec's identity-preservation scenario: the list
was `["VLC"]` with VLC selected. -/
def appVLC : App := { baseApp with player_names := ["VLC"], selected_player := 0 }

/-- The new enumeration of that scenario: Spotify then VLC. -/
def playersSV : List Player := [⟨"Spotify", qAll⟩, ⟨"VLC", qAll⟩]

/-- An app knowing two players with the first selected. -/
def appAB0 : App := { baseApp with player_names := ["A", "B"], selected_player := 0 }

/-- An app whose tick counter is about to reach a multiple of 20. -/
def appTick19 : App := { baseApp with tick_count := 19 }

/-- A two-player environment used to instantiate the safety theorem. -/
def envW9 : Env := envOf [⟨"A", qAll⟩, ⟨"B", qAll⟩]

/-- The selection invariant: the selected index is in bounds whenever the
known-players list is non-empty. -/
def SelInv (a : App) : Prop :=
  a.player_names ≠ [] → a.selected_player < a.player_names.length

/-- The app states reachable from `App::new` through the public operations
(the read-only dispatcher methods return the state unchanged in their
first component; setting `running := false` models the quit key handled in
main.rs). -/
inductive Reachable : App → Prop where
  | init (envP envS : Env) : Reachable (App.new envP envS)
  | tick_step (envP envS : Env) {a : App} : Reachable a → Reachable (tick envP envS a)
  | refresh_players_step (env : Env) {a : App} :
      Reachable a → Reachable (refresh_players env a)
  | refresh_state_step (env : Env) {a : App} :
      Reachable a → Reachable (refresh_state env a)
  | next_player_step (env : Env) {a : App} : Reachable a → Reachable (next_player env a)
  | prev_player_step (env : Env) {a : App} : Reachable a → Reachable (prev_player env a)
  | toggle_play_pause_step (env : Env) {a : App} :
      Reachable a → Reachable ((toggle_play_pause env a).1)
  | next_track_step (env : Env) {a : App} : Reachable a → Reachable ((next_track env a).1)
  | prev_track_step (env : Env) {a : App} : Reachable a → Reachable ((prev_track env a).1)
  | volume_up_step (env : Env) {a : App} : Reachable a → Reachable ((volume_up env a).1)
  | volume_down_step (env : Env) {a : App} : Reachable a → Reachable ((volume_down env a).1)
  | seek_forward_step (env : Env) {a : App} :
      Reachable a → Reachable ((seek_forward env a).1)
  | seek_backward_step (env : Env) {a : App} :
      Reachable a → Reachable ((seek_backward env a).1)
  | cycle_loop_step (env : Env) {a : App} : Reachable a → Reachable ((cycle_loop env a).1)
  | toggle_shuffle_step (env : Env) {a : App} :
      Reachable a → Reachable ((toggle_shuffle env a).1)
  | quit_step {a : App} : Reachable a → Reachable { a with running := false }

/-! ### Helper lemmas -/

theorem toggle_play_pause_fst (env : Env) (a : App) : (toggle_play_pause env a).1 = a := by
  unfold toggle_play_pause; cases find_current_player env a <;> rfl

theorem next_track_fst (env : Env) (a : App) : (next_track env a).1 = a := by
  unfold next_track; cases find_current_player env a <;> rfl

theorem prev_track_fst (env : Env) (a : App) : (prev_track env a).1 = a := by
  unfold prev_track; cases find_current_player env a <;> rfl

theorem volume_up_fst (env : Env) (a : App) : (volume_up env a).1 = a := by
  unfold volume_up; cases find_current_player env a <;> rfl

theorem volume_down_fst (env : Env) (a : App) : (volume_down env a).1 = a := by
  unfold volume_down; cases find_current_player env a <;> rfl

theorem seek_forward_fst (env : Env) (a : App) : (seek_forward env a).1 = a := by
  unfold seek_forward; cases find_current_player env a <;> rfl

theorem seek_backward_fst (env : Env) (a : App) : (seek_backward env a).1 = a := by
  unfold seek_backward; cases find_current_player env a <;> rfl

theorem cycle_loop_fst (env : Env) (a : App) : (cycle_loop env a).1 = a := by
  unfold cycle_loop
  cases find_current_player env a with
  | none => rfl
  | some p =>
    dsimp only
    cases p.q.get_loop_status with
    | none => rfl
    | some l => cases l <;> rfl

theorem toggle_shuffle_fst (env : Env) (a : App) : (toggle_shuffle env a).1 = a := by
  unfold toggle_shuffle; cases find_current_player env a <;> rfl

theorem refresh_state_frame (env : Env) (a : App) :
    (refresh_state env a).player_names = a.player_names ∧
    (refresh_state env a).selected_player = a.selected_player ∧
    (refresh_state env a).tick_count = a.tick_count ∧
    (refresh_state env a).running = a.running := by
  unfold refresh_state
  cases find_current_player env a <;> simp [clear_track_info, apply_queries]

theorem refresh_players_shape (env : Env) (a : App) :
    ∃ ns i, refresh_players env a = { a with player_names := ns, selected_player := i } := by
  unfold refresh_players
  cases env.finder with
  | none => exact ⟨[], a.selected_player, rfl⟩
  | some f =>
    dsimp only
    cases f.find_all with
    | none => exact ⟨[], a.selected_player, rfl⟩
    | some ps =>
      dsimp only
      by_cases hE : (ps.map Player.identity).isEmpty = true
      · rw [if_pos hE]
        exact ⟨[], 0, rfl⟩
      · rw [if_neg hE]
        exact ⟨_, _, rfl⟩

/-! ### Claim theorems -/

/-- C10: every dispatcher command except player switching (play/pause
toggle, next/previous track, volume up/down, seek forward/backward, cycle
loop, toggle shuffle) leaves every field of the snapshot unchanged — in
particular volume up/down do not modify the snapshot's locally stored
volume field, they only push a value to the external player. -/
theorem c10_dispatcher_preserves_snapshot (env : Env) (a : App) :
    (toggle_play_pause env a).1 = a ∧
    (next_track env a).1 = a ∧
    (prev_track env a).1 = a ∧
    (volume_up env a).1 = a ∧
    ((volume_up env a).1).volume = a.volume ∧
    (volume_down env a).1 = a ∧
    ((volume_down env a).1).volume = a.volume ∧
    (seek_forward env a).1 = a ∧
    (seek_backward env a).1 = a ∧
    (cycle_loop env a).1 = a ∧
    (toggle_shuffle env a).1 = a :=
  ⟨toggle_play_pause_fst env a, next_track_fst env a, prev_track_fst env a,
   volume_up_fst env a, by rw [volume_up_fst env a], volume_down_fst env a,
   by rw [volume_down_fst env a], seek_forward_fst env a, seek_backward_fst env a,
   cycle_loop_fst env a, toggle_shuffle_fst env a⟩

/-- C6: the loop-mode advance used by the cycle-loop command is a total,
closed function on {Off, Track, Playlist} (it is a function of that type)
following the fixed cycle Off → Track → Playlist → Off with period 3, and
when the current mode cannot be read at dispatch time the command performs
no external write at all. -/
theorem c6_cycle_loop_period_three (env : Env) (a : App) (p : Player)
    (hp : find_current_player env a = Option.some p) :
    (∀ l, loop_next (loop_next (loop_next l)) = l) ∧
    loop_next LoopStatus.None = LoopStatus.Track ∧
    loop_next LoopStatus.Track = LoopStatus.Playlist ∧
    loop_next LoopStatus.Playlist = LoopStatus.None ∧
    (p.q.get_loop_status = Option.none → (cycle_loop env a).2 = []) ∧
    (∀ l, p.q.get_loop_status = Option.some l →
      (cycle_loop env a).2 = [Effect.setLoopStatus (loop_next l)]) := by
  refine ⟨fun l => by cases l <;> rfl, rfl, rfl, rfl, ?_, ?_⟩
  · intro h
    unfold cycle_loop
    rw [hp]
    dsimp only
    rw [h]
  · intro l h
    unfold cycle_loop
    rw [hp]
    dsimp only
    rw [h]
    cases l <;> rfl

/-- Witness for C6: a concrete player whose loop status reads back Off
gets pushed Track, the successor on the fixed cycle. -/
theorem c6_cycle_loop_witness :
    (cycle_loop (envOf [⟨"P", qAll⟩]) appP).2 =
      [Effect.setLoopStatus (loop_next LoopStatus.None)] :=
  (c6_cycle_loop_period_three (envOf [⟨"P", qAll⟩]) appP ⟨"P", qAll⟩
    rfl).2.2.2.2.2 LoopStatus.None rfl

/-- C5 counterexample: at snapshot volume 2 (with the player resolving),
volume-down pushes (2 − 0.05) = 1.95, which exceeds 1.0 — the pushed
value is `max (v − 0.05) 0`, not (v − 0.05) clamped to [0.0, 1.0], so the
claim fails "regardless of starting value". -/
theorem c5_counterexample :
    (volume_down (envOf [⟨"P", qAll⟩]) appVol2).2 =
      [Effect.setVolume (max ((2 : ℚ) - 5 / 100) 0)] ∧
    ¬ (max ((2 : ℚ) - 5 / 100) 0 ≤ 1) := by
  constructor
  · rfl
  · intro hle
    have h : (2 : ℚ) - 5 / 100 ≤ 1 := le_trans (le_max_left _ _) hle
    norm_num at h

/-- C5 (amended): volume-up pushes (v + 0.05) clamped above to 1.0 and
volume-down pushes (v − 0.05) clamped below to 0.0; the up-push is never
above 1.0 and the down-push never below 0.0 for any starting value, and
both pushes lie in [0.0, 1.0] whenever the snapshot volume does. -/
theorem c5_volume_push_clamped (env : Env) (a : App) (p : Player)
    (hp : find_current_player env a = Option.some p) :
    (volume_up env a).2 = [Effect.setVolume (min (a.volume + 5 / 100) 1)] ∧
    min (a.volume + 5 / 100) 1 ≤ 1 ∧
    (volume_down env a).2 = [Effect.setVolume (max (a.volume - 5 / 100) 0)] ∧
    0 ≤ max (a.volume - 5 / 100) 0 ∧
    (0 ≤ a.volume → 0 ≤ min (a.volume + 5 / 100) 1) ∧
    (a.volume ≤ 1 → max (a.volume - 5 / 100) 0 ≤ 1) := by
  refine ⟨?_, min_le_right _ _, ?_, le_max_right _ _, ?_, ?_⟩
  · unfold volume_up
    rw [hp]
  · unfold volume_down
    rw [hp]
  · intro h
    exact le_min (by linarith) (by norm_num)
  · intro h
    exact max_le (by linarith) (by norm_num)

/-- Witness for C5 (amended) at a concrete resolvable player. -/
theorem c5_volume_witness :
    (volume_up (envOf [⟨"P", qAll⟩]) appP).2 =
      [Effect.setVolume (min (appP.volume + 5 / 100) 1)] :=
  (c5_volume_push_clamped (envOf [⟨"P", qAll⟩]) appP ⟨"P", qAll⟩ rfl).1

/-- C1 counterexample: with the player handle resolving, the metadata
query failing and the position query succeeding with 42, the refreshed
snapshot's title is "Unknown" — not "" as the claim states — while the
position does keep its queried value. -/
theorem c1_counterexample :
    find_current_player (envOf [⟨"P", qMetaFail⟩]) appP = Option.some ⟨"P", qMetaFail⟩ ∧
    (refresh_state (envOf [⟨"P", qMetaFail⟩]) appP).title = "Unknown" ∧
    ¬ ((refresh_state (envOf [⟨"P", qMetaFail⟩]) appP).title = "") ∧
    (refresh_state (envOf [⟨"P", qMetaFail⟩]) appP).position = 42 := by
  refine ⟨rfl, rfl, ?_, rfl⟩
  intro h
  exact absurd h (by decide)

/-- C1 (amended): when the metadata query fails while the player handle
still resolves, the snapshot's title, artist and album equal "Unknown"
(the empty string "" is the default only on the no-player path) and the
duration equals zero, while independently successful queries (position,
volume, shuffle) keep their queried values. -/
theorem c1_metadata_failure_defaults (env : Env) (a : App) (p : Player)
    (hp : find_current_player env a = Option.some p)
    (hm : p.q.get_metadata = Option.none) :
    (refresh_state env a).title = "Unknown" ∧
    (refresh_state env a).artist = "Unknown" ∧
    (refresh_state env a).album = "Unknown" ∧
    (refresh_state env a).duration = 0 ∧
    (∀ pos, p.q.get_position = Option.some pos → (refresh_state env a).position = pos) ∧
    (∀ v, p.q.get_volume = Option.some v → (refresh_state env a).volume = v) ∧
    (∀ b, p.q.get_shuffle = Option.some b → (refresh_state env a).shuffle = b) := by
  have hres : refresh_state env a = apply_queries p.q a := by
    unfold refresh_state
    rw [hp]
  rw [hres]
  unfold apply_queries
  rw [hm]
  refine ⟨rfl, rfl, rfl, rfl, ?_, ?_, ?_⟩
  · intro pos h
    dsimp only
    rw [h]
    rfl
  · intro v h
    dsimp only
    rw [h]
    rfl
  · intro b h
    dsimp only
    rw [h]
    rfl

/-- Witness for C1 (amended) at a concrete player whose metadata query
fails and whose position query returns 42. -/
theorem c1_metadata_witness :
    (refresh_state (envOf [⟨"P", qMetaFail⟩]) appP).artist = "Unknown" ∧
    (refresh_state (envOf [⟨"P", qMetaFail⟩]) appP).position = 42 :=
  ⟨(c1_metadata_failure_defaults (envOf [⟨"P", qMetaFail⟩]) appP ⟨"P", qMetaFail⟩
      rfl rfl).2.1,
   (c1_metadata_failure_defaults (envOf [⟨"P", qMetaFail⟩]) appP ⟨"P", qMetaFail⟩
      rfl rfl).2.2.2.2.1 42 rfl⟩

/-- C4 counterexample: with every query succeeding except that the title
field is absent from otherwise-successful metadata, the snapshot
substitutes "Unknown" for the title — not that field's documented default
"" — while the other fields keep their queried values. -/
theorem c4_counterexample :
    (refresh_state (envOf [⟨"P", qNoTitle⟩]) appP).title = "Unknown" ∧
    ¬ ((refresh_state (envOf [⟨"P", qNoTitle⟩]) appP).title = "") ∧
    (refresh_state (envOf [⟨"P", qNoTitle⟩]) appP).artist = "X" ∧
    (refresh_state (envOf [⟨"P", qNoTitle⟩]) appP).album = "Al" := by
  refine ⟨rfl, ?_, rfl, rfl⟩
  intro h
  exact absurd h (by decide)

/-- C4 (amended): with a resolvable selected player the snapshot is
populated from that player's queries; the failure of exactly one query
substitutes only the fields derived from that query — with "Unknown" (not
the documented "") for absent title/artist/album — and leaves every other
field at its successfully queried value.  The three metadata strings and
the duration are derived from the single metadata query, so that query's
failure defaults those four fields together (and only those); an absent
individual field within successful metadata defaults only that field. -/
theorem c4_field_isolation (env : Env) (a : App) (p : Player)
    (q : PlayerQueries) (m : MetadataRes)
    (hp : find_current_player env a = Option.some p) :
    refresh_state env a = apply_queries p.q a ∧
    apply_queries { q with get_position := Option.none } a =
      { apply_queries q a with position := 0 } ∧
    apply_queries { q with get_playback_status := Option.none } a =
      { apply_queries q a with playback_status := "Stopped" } ∧
    apply_queries { q with get_volume := Option.none } a =
      { apply_queries q a with volume := 0 } ∧
    apply_queries { q with get_loop_status := Option.none } a =
      { apply_queries q a with loop_status := "N/A" } ∧
    apply_queries { q with get_shuffle := Option.none } a =
      { apply_queries q a with shuffle := false } ∧
    apply_queries { q with get_metadata := Option.some { m with title := Option.none } } a =
      { apply_queries { q with get_metadata := Option.some m } a with title := "Unknown" } ∧
    apply_queries { q with get_metadata := Option.some { m with artists := Option.none } } a =
      { apply_queries { q with get_metadata := Option.some m } a with artist := "Unknown" } ∧
    apply_queries { q with get_metadata := Option.some { m with album_name := Option.none } } a =
      { apply_queries { q with get_metadata := Option.some m } a with album := "Unknown" } ∧
    apply_queries { q with get_metadata := Option.some { m with length := Option.none } } a =
      { apply_queries { q with get_metadata := Option.some m } a with duration := 0 } ∧
    apply_queries { q with get_metadata := Option.none } a =
      { apply_queries { q with get_metadata := Option.some m } a with
          title := "Unknown", artist := "Unknown", album := "Unknown", duration := 0 } := by
  refine ⟨?_, rfl, rfl, rfl, rfl, rfl, rfl, rfl, rfl, rfl, rfl⟩
  unfold refresh_state
  rw [hp]

/-- Witness for C4 (amended): a concrete refresh in which only the volume
query fails leaves every other field at its queried value and zeroes only
the volume. -/
theorem c4_isolation_witness :
    refresh_state (envOf [⟨"P", qNoTitle⟩]) appP = apply_queries qNoTitle appP ∧
    apply_queries { qAll with get_volume := Option.none } appP =
      { apply_queries qAll appP with volume := 0 } :=
  ⟨(c4_field_isolation (envOf [⟨"P", qNoTitle⟩]) appP ⟨"P", qNoTitle⟩ qAll
      MetadataRes.empty rfl).1,
   (c4_field_isolation (envOf [⟨"P", qNoTitle⟩]) appP ⟨"P", qNoTitle⟩ qAll
      MetadataRes.empty rfl).2.2.2.1⟩

/-- C2 counterexample: enumerating while the bus is unreachable clears the
known-players list but leaves selected_index at 1, so neither "resets
selected_index to 0" nor the invariant "selected_index == 0 whenever
known_players is empty" holds on the unavailability branch. -/
theorem c2_counterexample :
    (refresh_players envNoBus appAB1).player_names = [] ∧
    ¬ ((refresh_players envNoBus appAB1).selected_player = 0) := by
  refine ⟨rfl, ?_⟩
  intro h
  exact absurd h (by decide)

/-- C2 (amended): on discovery-source unavailability the known-players
list is cleared with selected_index left unchanged; only on a successful
but empty enumeration is selected_index also reset to 0; a state refresh
with an empty list yields exactly the documented defaults. -/
theorem c2_empty_enumeration_defaults (env env2 : Env) (a : App) :
    (env.finder = Option.none → refresh_players env a = { a with player_names := [] }) ∧
    (∀ f, env.finder = Option.some f → f.find_all = Option.none →
      refresh_players env a = { a with player_names := [] }) ∧
    (∀ f, env.finder = Option.some f → f.find_all = Option.some [] →
      refresh_players env a = { a with player_names := [], selected_player := 0 }) ∧
    (a.player_names = [] → refresh_state env2 a = clear_track_info a) ∧
    (clear_track_info a).title = "" ∧
    (clear_track_info a).artist = "" ∧
    (clear_track_info a).album = "" ∧
    (clear_track_info a).position = 0 ∧
    (clear_track_info a).duration = 0 ∧
    (clear_track_info a).playback_status = "Stopped" ∧
    (clear_track_info a).volume = 0 ∧
    (clear_track_info a).loop_status = "N/A" ∧
    (clear_track_info a).shuffle = false := by
  refine ⟨?_, ?_, ?_, ?_, rfl, rfl, rfl, rfl, rfl, rfl, rfl, rfl, rfl⟩
  · intro h
    unfold refresh_players
    rw [h]
  · intro f h1 h2
    unfold refresh_players
    rw [h1]
    dsimp only
    rw [h2]
  · intro f h1 h2
    unfold refresh_players
    rw [h1]
    dsimp only
    rw [h2]
    rfl
  · intro h
    unfold refresh_state find_current_player
    rw [h]
    rfl

/-- Witness for C2 (amended): a successful empty enumeration resets the
selection, and a refresh on an empty list yields the defaults. -/
theorem c2_empty_enumeration_witness :
    refresh_players (envOf []) appAB1 =
      { appAB1 with player_names := [], selected_player := 0 } ∧
    refresh_state envNoBus appEmpty1 = clear_track_info appEmpty1 :=
  ⟨(c2_empty_enumeration_defaults (envOf []) envNoBus appAB1).2.2.1
      ⟨Option.some []⟩ rfl rfl,
   (c2_empty_enumeration_defaults (envOf []) envNoBus appEmpty1).2.2.2.1 rfl⟩

/-- C3 counterexample: starting from the reachable state with an empty
list but selected_index 1 (produced from `appAB1` by a bus failure), a
successful non-empty re-enumeration ["A", "B", "C"] leaves selected_index
at 1 — the claim demands 0 whenever the previous index was out of bounds
of the old list. -/
theorem c3_counterexample :
    refresh_players envNoBus appAB1 = appEmpty1 ∧
    appEmpty1.player_names.get? appEmpty1.selected_player = Option.none ∧
    (refresh_players (envOf playersABC) appEmpty1).player_names = ["A", "B", "C"] ∧
    ¬ ((refresh_players (envOf playersABC) appEmpty1).selected_player = 0) := by
  refine ⟨rfl, rfl, rfl, ?_⟩
  intro h
  exact absurd h (by decide)

/-- C3 (amended): for every successful non-empty re-enumeration, if the
identity previously at selected_index occurs in the new list,
selected_index becomes that identity's position there; if that identity
exists but is absent from the new list, selected_index becomes 0; if the
previous index was out of bounds of the old list, selected_index is kept
unchanged unless it is out of bounds of the new list, in which case it
becomes 0. -/
theorem c3_identity_preservation (env : Env) (f : Finder) (ps : List Player) (a : App)
    (hf : env.finder = Option.some f) (hall : f.find_all = Option.some ps)
    (hne : (ps.map Player.identity).isEmpty = false) :
    (refresh_players env a).player_names = ps.map Player.identity ∧
    (∀ prev idx, a.player_names.get? a.selected_player = Option.some prev →
      (ps.map Player.identity).findIdx? (fun n => n == prev) = Option.some idx →
      (refresh_players env a).selected_player = idx) ∧
    (∀ prev, a.player_names.get? a.selected_player = Option.some prev →
      (ps.map Player.identity).findIdx? (fun n => n == prev) = Option.none →
      (refresh_players env a).selected_player = 0) ∧
    (a.player_names.get? a.selected_player = Option.none →
      (refresh_players env a).selected_player =
        if (ps.map Player.identity).length ≤ a.selected_player then 0
        else a.selected_player) := by
  have hlen : 0 < (ps.map Player.identity).length := by
    cases hM : ps.map Player.identity with
    | nil => rw [hM] at hne; exact absurd hne (by decide)
    | cons x xs => exact Nat.succ_pos _
  unfold refresh_players
  rw [hf]
  dsimp only
  rw [hall]
  dsimp only
  rw [if_neg (by rw [hne]; exact Bool.false_ne_true)]
  refine ⟨rfl, ?_, ?_, ?_⟩
  · intro prev idx h1 h2
    dsimp only
    rw [h1]
    dsimp only
    rw [h2]
    dsimp only
    have hidx : idx < (ps.map Player.identity).length :=
      (List.findIdx?_eq_some_iff_findIdx_eq.mp h2).1
    rw [if_neg (by omega)]
  · intro prev h1 h2
    dsimp only
    rw [h1]
    dsimp only
    rw [h2]
    dsimp only
    rw [if_neg (by omega)]
  · intro h1
    dsimp only
    rw [h1]

/-- Witness for C3 (amended): the spec's scenario — prior list ["VLC"]
with VLC selected, new enumeration [Spotify, VLC] — resolves to index 1,
VLC's new position. -/
theorem c3_identity_witness :
    (refresh_players (envOf playersSV) appVLC).selected_player = 1 :=
  (c3_identity_preservation (envOf playersSV) ⟨Option.some playersSV⟩ playersSV appVLC
    rfl rfl rfl).2.1 "VLC" 1 rfl rfl

theorem prev_index_eq (i n : Nat) (h : i < n) :
    (if i == 0 then n - 1 else i - 1) = (i + n - 1) % n := by
  by_cases h0 : i = 0
  · rw [if_pos (by simp [h0])]
    subst h0
    rw [Nat.zero_add, Nat.mod_eq_of_lt (by omega)]
  · rw [if_neg (by simp [h0])]
    have e : i + n - 1 = (i - 1) + n := by omega
    rw [e, Nat.add_mod_right, Nat.mod_eq_of_lt (by omega)]

theorem isEmpty_false_of_ne_nil {l : List String} (h : l ≠ []) : l.isEmpty = false := by
  cases l with
  | nil => exact absurd rfl h
  | cons x xs => rfl

/-- C7: on a non-empty list of n players with selected index i < n, the
select-next command moves the selection to (i + 1) mod n and the
select-previous command to (i + n − 1) mod n, and each performs a full
state refresh on the reselected state within the same command. -/
theorem c7_player_switch_wraps (env : Env) (a : App)
    (hne : a.player_names ≠ []) (hlt : a.selected_player < a.player_names.length) :
    next_player env a =
      refresh_state env
        { a with selected_player := (a.selected_player + 1) % a.player_names.length } ∧
    (next_player env a).selected_player =
      (a.selected_player + 1) % a.player_names.length ∧
    prev_player env a =
      refresh_state env
        { a with selected_player :=
            (a.selected_player + a.player_names.length - 1) % a.player_names.length } ∧
    (prev_player env a).selected_player =
      (a.selected_player + a.player_names.length - 1) % a.player_names.length := by
  have hE : a.player_names.isEmpty = false := isEmpty_false_of_ne_nil hne
  have h1 : next_player env a =
      refresh_state env
        { a with selected_player := (a.selected_player + 1) % a.player_names.length } := by
    unfold next_player
    rw [if_neg (by rw [hE]; exact Bool.false_ne_true)]
  have h2 : prev_player env a =
      refresh_state env
        { a with selected_player :=
            (a.selected_player + a.player_names.length - 1) % a.player_names.length } := by
    unfold prev_player
    rw [if_neg (by rw [hE]; exact Bool.false_ne_true)]
    rw [prev_index_eq _ _ hlt]
  refine ⟨h1, ?_, h2, ?_⟩
  · rw [h1, (refresh_state_frame env _).2.1]
  · rw [h2, (refresh_state_frame env _).2.1]

/-- Witness for C7 at two known players with the first selected: next
wraps to (0+1) mod 2 and previous to (0+2−1) mod 2. -/
theorem c7_player_switch_witness :
    (next_player envNoBus appAB0).selected_player = (0 + 1) % 2 ∧
    (prev_player envNoBus appAB0).selected_player = (0 + 2 - 1) % 2 :=
  ⟨(c7_player_switch_wraps envNoBus appAB0 (by decide) (by decide)).2.1,
   (c7_player_switch_wraps envNoBus appAB0 (by decide) (by decide)).2.2.2⟩

/-- C8: every tick increments tick_count by exactly 1; re-enumeration runs
within the tick exactly when the incremented counter is a multiple of 20;
and a state refresh always runs afterwards (on the re-enumerated state
when re-enumeration happened, on the merely-incremented state otherwise). -/
theorem c8_tick_behavior (envP envS : Env) (a : App) :
    (tick envP envS a).tick_count = a.tick_count + 1 ∧
    ((a.tick_count + 1) % 20 = 0 →
      tick envP envS a =
        refresh_state envS
          (refresh_players envP { a with tick_count := a.tick_count + 1 })) ∧
    ((a.tick_count + 1) % 20 ≠ 0 →
      tick envP envS a = refresh_state envS { a with tick_count := a.tick_count + 1 }) := by
  refine ⟨?_, ?_, ?_⟩
  · unfold tick
    dsimp only
    by_cases h : (a.tick_count + 1) % 20 = 0
    · rw [if_pos (by simpa using h), (refresh_state_frame envS _).2.2.1]
      obtain ⟨ns, i, hshape⟩ :=
        refresh_players_shape envP { a with tick_count := a.tick_count + 1 }
      rw [hshape]
    · rw [if_neg (by simpa using h), (refresh_state_frame envS _).2.2.1]
  · intro h
    unfold tick
    dsimp only
    rw [if_pos (by simpa using h)]
  · intro h
    unfold tick
    dsimp only
    rw [if_neg (by simpa using h)]

/-- Witness for C8 at tick counter 19: the 20th tick re-enumerates then
refreshes, and the counter becomes 20. -/
theorem c8_tick_witness :
    tick envNoBus envNoBus appTick19 =
      refresh_state envNoBus
        (refresh_players envNoBus { appTick19 with tick_count := appTick19.tick_count + 1 }) ∧
    (tick envNoBus envNoBus appTick19).tick_count = appTick19.tick_count + 1 :=
  ⟨(c8_tick_behavior envNoBus envNoBus appTick19).2.1 (by decide),
   (c8_tick_behavior envNoBus envNoBus appTick19).1⟩

theorem clamp_lt (s n : Nat) (h : 0 < n) : (if n ≤ s then 0 else s) < n := by
  by_cases hc : n ≤ s
  · rw [if_pos hc]
    exact h
  · rw [if_neg hc]
    omega

theorem refresh_players_SelInv (env : Env) (a : App) : SelInv (refresh_players env a) := by
  unfold SelInv refresh_players
  cases env.finder with
  | none =>
    intro h
    exact absurd rfl h
  | some f =>
    dsimp only
    cases f.find_all with
    | none =>
      intro h
      exact absurd rfl h
    | some ps =>
      dsimp only
      by_cases hE : (ps.map Player.identity).isEmpty = true
      · rw [if_pos hE]
        intro h
        exact absurd rfl h
      · rw [if_neg hE]
        intro _
        have hlen : 0 < (ps.map Player.identity).length := by
          cases hM : ps.map Player.identity with
          | nil => rw [hM] at hE; exact absurd rfl hE
          | cons x xs => exact Nat.succ_pos _
        exact clamp_lt _ _ hlen

theorem refresh_state_SelInv (env : Env) (a : App) (h : SelInv a) :
    SelInv (refresh_state env a) := by
  unfold SelInv at *
  rw [(refresh_state_frame env a).1, (refresh_state_frame env a).2.1]
  exact h

theorem next_player_SelInv (env : Env) (a : App) (h : SelInv a) :
    SelInv (next_player env a) := by
  unfold next_player
  by_cases hE : a.player_names.isEmpty = true
  · rw [if_pos hE]
    exact h
  · rw [if_neg hE]
    apply refresh_state_SelInv
    intro _
    dsimp only
    have hlen : 0 < a.player_names.length := by
      cases hM : a.player_names with
      | nil => rw [hM] at hE; exact absurd rfl hE
      | cons x xs => exact Nat.succ_pos _
    exact Nat.mod_lt _ hlen

theorem prev_player_SelInv (env : Env) (a : App) (h : SelInv a) :
    SelInv (prev_player env a) := by
  unfold prev_player
  by_cases hE : a.player_names.isEmpty = true
  · rw [if_pos hE]
    exact h
  · rw [if_neg hE]
    apply refresh_state_SelInv
    have hne : a.player_names ≠ [] := by
      intro hx
      rw [hx] at hE
      exact hE rfl
    have hlen : 0 < a.player_names.length := List.length_pos.mpr hne
    have hsel := h hne
    intro _
    dsimp only
    by_cases h0 : (a.selected_player == 0) = true
    · rw [if_pos h0]
      omega
    · rw [if_neg h0]
      omega

theorem tick_SelInv (envP envS : Env) (a : App) (h : SelInv a) :
    SelInv (tick envP envS a) := by
  unfold tick
  dsimp only
  apply refresh_state_SelInv
  by_cases hc : ((a.tick_count + 1) % 20 == 0) = true
  · rw [if_pos hc]
    exact refresh_players_SelInv envP _
  · rw [if_neg hc]
    exact h

theorem App_new_SelInv (envP envS : Env) : SelInv (App.new envP envS) :=
  refresh_state_SelInv envS _ (refresh_players_SelInv envP _)

theorem reachable_SelInv (a : App) (h : Reachable a) : SelInv a := by
  induction h with
  | init envP envS => exact App_new_SelInv envP envS
  | tick_step envP envS _ ih => exact tick_SelInv envP envS _ ih
  | refresh_players_step env _ _ => exact refresh_players_SelInv env _
  | refresh_state_step env _ ih => exact refresh_state_SelInv env _ ih
  | next_player_step env _ ih => exact next_player_SelInv env _ ih
  | prev_player_step env _ ih => exact prev_player_SelInv env _ ih
  | toggle_play_pause_step env _ ih => rw [toggle_play_pause_fst env _]; exact ih
  | next_track_step env _ ih => rw [next_track_fst env _]; exact ih
  | prev_track_step env _ ih => rw [prev_track_fst env _]; exact ih
  | volume_up_step env _ ih => rw [volume_up_fst env _]; exact ih
  | volume_down_step env _ ih => rw [volume_down_fst env _]; exact ih
  | seek_forward_step env _ ih => rw [seek_forward_fst env _]; exact ih
  | seek_backward_step env _ ih => rw [seek_backward_fst env _]; exact ih
  | cycle_loop_step env _ ih => rw [cycle_loop_fst env _]; exact ih
  | toggle_shuffle_step env _ ih => rw [toggle_shuffle_fst env _]; exact ih
  | quit_step _ ih => exact ih

/-- C9: from the initial state, the invariant "selected_player is in
bounds whenever player_names is non-empty" is preserved by every public
operation, so the direct index `player_names[selected_player]` taken by
`find_current_player` on a non-empty list always has an answer (the
out-of-bounds branch is unreachable). -/
theorem c9_selected_index_in_bounds (a : App) (h : Reachable a) :
    (a.player_names ≠ [] → a.selected_player < a.player_names.length) ∧
    (a.player_names ≠ [] →
      (a.player_names.get? a.selected_player).isSome = true) := by
  have inv : SelInv a := reachable_SelInv a h
  refine ⟨inv, fun hne => ?_⟩
  have hlt := inv hne
  cases hg : a.player_names.get? a.selected_player with
  | some x => rfl
  | none =>
    have := List.get?_eq_none.mp hg
    omega

/-- Witness for C9 at a freshly initialized app over a two-player world:
the list is non-empty and the selected index is in bounds. -/
theorem c9_selected_index_witness :
    (App.new envW9 envW9).selected_player < (App.new envW9 envW9).player_names.length ∧
    ((App.new envW9 envW9).player_names.get?
      (App.new envW9 envW9).selected_player).isSome = true :=
  ⟨(c9_selected_index_in_bounds (App.new envW9 envW9)
      (Reachable.init envW9 envW9)).1 (by decide),
   (c9_selected_index_in_bounds (App.new envW9 envW9)
      (Reachable.init envW9 envW9)).2 (by decide)⟩
